import Mathlib

/-!
Shallow embedding of `crates/circuit/src/dag_node.rs` (Qiskit's DAG node
layer): the `DAGNode` identity handle, the `DAGOpNode`, `DAGInNode` and
`DAGOutNode` variants, their equality, hash, snapshot (`__reduce__` /
`__setstate__`) and duplication (`from_instruction`) protocols.

Modelling conventions:
* `f64` parameter values are modelled by `F64`: an exact rational for a
  finite double, plus the NaN and infinity special values.  The
  `approx::relative_eq!` macro is embedded with its real semantics:
  partial-equality shortcut (false on NaN, true on same-signed
  infinities), the explicit infinity rejection, the absolute-difference
  fallback at `f64::EPSILON = 2^-52`, then the relative test at
  `max_relative = 1e-10`; every comparison against a NaN operand is
  false, so the macro is irreflexive at NaN exactly as on real doubles.
  The finite inputs used in concrete theorems below are exactly
  representable comparisons, so no rounding behaviour is lost.
* Externally owned Python objects (wires, parameter expressions, opaque
  parameter objects, the payloads of generic gate/instruction/operation
  descriptors) are opaque handles modelled as `Nat`, compared by their own
  (structural) equality, as the code delegates to their `__eq__`.
* The `cache_pygates` once-cell `py_op` is modelled by a `Bool`
  (`true` = a materialized Python operation is cached, `false` = empty).
* The 64-bit `AHasher` stream of `DAGOpNode::__hash__` writes the node id
  followed by the operation-name bytes; being a fixed deterministic function
  of that stream, the hash is modelled as the pair it consumes.
-/

namespace QiskitDagNode

/-- Absolute value on `ℚ`, written with an `if` so `decide` evaluates it. -/
def ratAbs (q : ℚ) : ℚ := if q < 0 then -q else q

/-- Maximum on `ℚ`, written with an `if` so `decide` evaluates it. -/
def ratMax (a b : ℚ) : ℚ := if a ≤ b then b else a

/-- `f64::EPSILON`, the default absolute tolerance of `approx::relative_eq!`. -/
def f64Epsilon : ℚ := 1 / 2 ^ 52

/-- The `max_relative = 1e-10` tolerance used in `DAGOpNode::__eq__`. -/
def maxRelativeTol : ℚ := 1 / 10 ^ 10

/-- Model of an IEEE-754 double as the node layer observes it: an exact
rational for a finite value, NaN, or a signed infinity.  `Param::Float`
carries a raw `f64` in the source and admits all of these. -/
inductive F64 where
  | finite (q : ℚ)
  | nan
  | inf
  | negInf
deriving DecidableEq

/-- `f64` partial equality (`a == b`): false whenever an operand is NaN,
componentwise on finite values, true on same-signed infinities. -/
def F64.beq (a b : F64) : Bool :=
  match a, b with
  | .finite x, .finite y => decide (x = y)
  | .inf, .inf => true
  | .negInf, .negInf => true
  | _, _ => false

/-- `f64::is_infinite`. -/
def F64.isInfinite : F64 → Bool
  | .inf => true
  | .negInf => true
  | _ => false

/-- `relative_eq!(a, b, max_relative = 1e-10)` from the `approx` crate, as
called in `DAGOpNode::__eq__`: true when `a == b` (which handles equal
infinities and rejects NaN), false when a remaining operand is infinite;
otherwise true when `|a - b|` is at most `f64::EPSILON` or when
`|a - b| ≤ max(|a|, |b|) * 1e-10`.  In the remaining non-finite cases an
operand is NaN, and every `f64` comparison against NaN is false, so the
macro returns false there. -/
def relativeEq (a b : F64) : Bool :=
  if F64.beq a b then true
  else if a.isInfinite || b.isInfinite then false
  else
    match a, b with
    | .finite x, .finite y =>
      if ratAbs (x - y) ≤ f64Epsilon then true
      else decide (ratAbs (x - y) ≤ ratMax (ratAbs x) (ratAbs y) * maxRelativeTol)
    | _, _ => false

/-- `Param` from `crates/circuit/src/operations.rs`: a plain float, a symbolic
`ParameterExpression` (opaque Python handle), or an opaque Python object. -/
inductive Param where
  | float (x : F64)
  | parameterExpression (e : Nat)
  | obj (o : Nat)
deriving DecidableEq

/-- The kind tag of a `Param`, used to state the mismatched-kind rule. -/
def Param.kindTag : Param → Nat
  | .float _ => 0
  | .parameterExpression _ => 1
  | .obj _ => 2

/-- Does this parameter hold a NaN float?  Such a parameter never passes
the tolerant comparison, not even against itself. -/
def Param.isNanFloat : Param → Bool
  | .float .nan => true
  | _ => false

/-- The closed set of `OperationRef` views of a packed operation: generic
Python gate / instruction / operation (opaque handles), a standard gate, a
standard instruction, or a unitary-matrix gate (payload opaque). -/
inductive OperationKind where
  | gate (g : Nat)
  | instruction (i : Nat)
  | operation (o : Nat)
  | standardGate (g : Nat)
  | standardInstruction (i : Nat)
  | unitary (u : Nat)
deriving DecidableEq

/-- Modelled from the spec: the operation descriptor (`PackedOperation`, not
under `src/`) carries its kind payload and its `name()`; §4.2 requires that
descriptor-level equality is payload-shape-aware and that any two equal
descriptors share their name, so descriptor equality is structural equality
of this record. -/
structure OperationDescr where
  kind : OperationKind
  name : String
deriving DecidableEq

/-- Modelled from the spec: the externally-delegated descriptor-equality
check (`Operation::py_eq`, not under `src/`); equal descriptors agree on
every observable field, in particular on the name (§4.2). -/
def opPyEq (a b : OperationDescr) : Bool := decide (a = b)

/-- `PackedOperation::try_standard_gate`: the standard-gate view when the
operation is a fixed/native standard gate, `none` otherwise. -/
def OperationDescr.try_standard_gate (op : OperationDescr) : Option Nat :=
  match op.kind with
  | .standardGate g => some g
  | _ => none

/-- `CircuitInstruction` from `crates/circuit/src/circuit_instruction.rs`,
with the fields `DAGOpNode` reads: operation descriptor, qubit and clbit
tuples (lists of opaque wire handles), parameters, label, and the
`cache_pygates` cell (`true` = populated). -/
structure CircuitInstruction where
  operation : OperationDescr
  qubits : List Nat
  clbits : List Nat
  params : List Param
  label : Option String
  py_op : Bool
deriving DecidableEq

/-- `DAGNode`: the identity handle, `node: Option<NodeIndex>`; `none` is a
detached node. -/
structure DAGNode where
  node : Option Nat
deriving DecidableEq

/-- `DAGNode::py_nid`: the raw index as a signed integer, `-1` when
detached. -/
def DAGNode.py_nid (self : DAGNode) : Int :=
  match self.node with
  | some i => (i : Int)
  | none => -1

/-- `DAGNode::__lt__`: comparison purely on `py_nid`. -/
def DAGNode.lt (self other : DAGNode) : Bool :=
  decide (self.py_nid < other.py_nid)

/-- `DAGNode::__gt__`: comparison purely on `py_nid`. -/
def DAGNode.gt (self other : DAGNode) : Bool :=
  decide (self.py_nid > other.py_nid)

/-- `DAGOpNode`: the base `DAGNode` plus the wrapped `CircuitInstruction`. -/
structure DAGOpNode where
  base : DAGNode
  instruction : CircuitInstruction
deriving DecidableEq

/-- `DAGInNode`: the base `DAGNode` plus the opaque wire handle. -/
structure DAGInNode where
  base : DAGNode
  wire : Nat
deriving DecidableEq

/-- `DAGOutNode`: the base `DAGNode` plus the opaque wire handle. -/
structure DAGOutNode where
  base : DAGNode
  wire : Nat
deriving DecidableEq

/-- The Python value handed to an `__eq__` method: one of the three node
classes or any other object.  A `downcast::<T>` in the source succeeds
exactly on the matching constructor (the three node classes are sibling
subclasses of `DAGNode`, none a subclass of another). -/
inductive PyAny where
  | opNode (n : DAGOpNode)
  | inNode (n : DAGInNode)
  | outNode (n : DAGOutNode)
  | other (o : Nat)
deriving DecidableEq

/-- One pair in the parameter loop of `DAGOpNode::__eq__`: floats via
`relative_eq!` with `max_relative = 1e-10`, parameter expressions and opaque
objects via their own equality, any mismatched pairing false. -/
def paramsPairEq (a b : Param) : Bool :=
  match a, b with
  | .float x, .float y => relativeEq x y
  | .parameterExpression p, .parameterExpression q => decide (p = q)
  | .obj p, .obj q => decide (p = q)
  | _, _ => false

/-- `DAGOpNode::__eq__`: false if the downcast to `DAGOpNode` fails; then
node ids must match, the operation descriptors must be `py_eq`, the
parameters must pass the pairwise tolerant loop (only when `self` is a
standard gate; the loop runs over `zip`, i.e. up to the shorter list), and
the qubit and clbit tuples must be equal. -/
def DAGOpNode.eq (slf : DAGOpNode) (other : PyAny) : Bool :=
  match other with
  | .opNode o =>
    if slf.base.py_nid ≠ o.base.py_nid then false
    else if ¬ (opPyEq slf.instruction.operation o.instruction.operation = true) then false
    else
      let params_eq : Bool :=
        if (slf.instruction.operation.try_standard_gate).isSome then
          (slf.instruction.params.zip o.instruction.params).all
            (fun p => paramsPairEq p.1 p.2)
        else true
      params_eq && decide (slf.instruction.qubits = o.instruction.qubits)
        && decide (slf.instruction.clbits = o.instruction.clbits)
  | _ => false

/-- `DAGOpNode::__hash__`: an `AHasher` is fed `py_nid` and then the
operation-name bytes; the hash is modelled as that input pair. -/
def DAGOpNode.hashModel (slf : DAGOpNode) : Int × String :=
  (slf.base.py_nid, slf.instruction.operation.name)

/-- `DAGInNode::__eq__`: false if the downcast to `DAGInNode` fails; else
node ids must match and the wires must be equal under the wire's own
equality. -/
def DAGInNode.eq (slf : DAGInNode) (other : PyAny) : Bool :=
  match other with
  | .inNode o =>
    decide (slf.base.py_nid = o.base.py_nid) && decide (slf.wire = o.wire)
  | _ => false

/-- `DAGOutNode::__eq__`: false if the downcast to `DAGOutNode` fails; else
node ids must match and the wires must be equal under the wire's own
equality. -/
def DAGOutNode.eq (slf : DAGOutNode) (other : PyAny) : Bool :=
  match other with
  | .outNode o =>
    decide (slf.base.py_nid = o.base.py_nid) && decide (slf.wire = o.wire)
  | _ => false

/-- Variant-dispatched equality: each node class answers with its own
`__eq__`; a non-node value on the left has none of these methods. -/
def anyEq (a b : PyAny) : Bool :=
  match a with
  | .opNode n => n.eq b
  | .inNode n => n.eq b
  | .outNode n => n.eq b
  | .other _ => false

/-- Is the value one of the three node variants? -/
def PyAny.isNode : PyAny → Bool
  | .other _ => false
  | _ => true

/-- A node compares equal to an identical copy of itself unless it is a
standard-gate Operation Node with a NaN float parameter: only then does the
tolerant parameter loop run and fail on the NaN position.  Boundary nodes
and non-standard-gate Operation Nodes are always self-comparable. -/
def selfComparable : PyAny → Bool
  | .opNode n =>
    !(n.instruction.operation.try_standard_gate).isSome
      || n.instruction.params.all (fun p => !p.isNanFloat)
  | _ => true

/-- The portable tuple produced by `__reduce__`: the constructor payload of
the variant plus the raw-index state (`None` when detached). -/
inductive NodeSnapshot where
  | op (operation : OperationDescr) (params : List Param) (label : Option String)
      (qubits : List Nat) (clbits : List Nat) (state : Option Nat)
  | inn (wire : Nat) (state : Option Nat)
  | out (wire : Nat) (state : Option Nat)
deriving DecidableEq

/-- `__reduce__` for each variant: `DAGOpNode` snapshots the materialized
operation (which carries descriptor, params and label), the qubit and clbit
tuples, and the raw index; the boundary variants snapshot the wire and the
raw index.  A non-node value has no snapshot. -/
def snapshotAny : PyAny → Option NodeSnapshot
  | .opNode n => some (.op n.instruction.operation n.instruction.params
      n.instruction.label n.instruction.qubits n.instruction.clbits n.base.node)
  | .inNode n => some (.inn n.wire n.base.node)
  | .outNode n => some (.out n.wire n.base.node)
  | .other _ => none

/-- Restore: replay the detached constructor on the snapshotted payload
(`DAGOpNode::py_new` re-extracts operation, params and label from the
materialized operation and caches it in `py_op`; the boundary constructors
take the wire), then `__setstate__` writes the raw index directly. -/
def restoreAny : NodeSnapshot → PyAny
  | .op operation params label qubits clbits state =>
    .opNode ⟨⟨state⟩, ⟨operation, qubits, clbits, params, label, true⟩⟩
  | .inn wire state => .inNode ⟨⟨state⟩, wire⟩
  | .out wire state => .outNode ⟨⟨state⟩, wire⟩

/-- The externally-delegated deep-copy functions (`py_deepcopy` of a generic
gate, instruction or operation payload; not under `src/`), abstracted as
arbitrary functions on the opaque handles. -/
structure DeepcopyFns where
  gate : Nat → Nat
  instruction : Nat → Nat
  operation : Nat → Nat

/-- The kind-specific duplication rule in `DAGOpNode::from_instruction`:
generic gate / instruction / operation payloads go through `py_deepcopy`;
standard gates and standard instructions are copied by value; a unitary gate
is cloned by value. -/
def deepcopyOperation (f : DeepcopyFns) (op : OperationDescr) : OperationDescr :=
  { op with
    kind :=
      match op.kind with
      | .gate g => .gate (f.gate g)
      | .instruction i => .instruction (f.instruction i)
      | .operation o => .operation (f.operation o)
      | .standardGate g => .standardGate g
      | .standardInstruction i => .standardInstruction i
      | .unitary u => .unitary u }

/-- `DAGOpNode::from_instruction`: when `deepcopy` is requested the
operation descriptor is rebuilt by its kind-specific rule and the
`cache_pygates` cell is reset to a fresh empty `OnceLock`; the result wraps
the instruction with a detached base node. -/
def from_instruction (f : DeepcopyFns) (instruction : CircuitInstruction)
    (deepcopy : Bool) : DAGOpNode :=
  let instruction :=
    if deepcopy then
      { instruction with
        operation := deepcopyOperation f instruction.operation
        py_op := false }
    else instruction
  ⟨⟨none⟩, instruction⟩

/-! ### Helper lemmas -/

lemma ratAbs_sub_comm (a b : ℚ) : ratAbs (a - b) = ratAbs (b - a) := by
  unfold ratAbs
  rcases lt_trichotomy (a - b) 0 with h | h | h
  · have h2 : ¬ (b - a < 0) := by linarith
    simp only [if_pos h, if_neg h2]; ring
  · have h1 : ¬ (a - b < 0) := by simp [h]
    have h2 : ¬ (b - a < 0) := by linarith
    simp only [if_neg h1, if_neg h2]; linarith
  · have h1 : ¬ (a - b < 0) := by linarith
    have h2 : b - a < 0 := by linarith
    simp only [if_neg h1, if_pos h2]; ring

lemma ratMax_comm (a b : ℚ) : ratMax a b = ratMax b a := by
  unfold ratMax
  rcases le_total a b with h | h
  · by_cases h2 : b ≤ a
    · simp [h, h2, le_antisymm h2 h]
    · simp [h, h2]
  · by_cases h2 : a ≤ b
    · simp [h, h2, le_antisymm h h2]
    · simp [h, h2]

lemma decide_eq_comm {α : Type} [DecidableEq α] (x y : α) :
    decide (x = y) = decide (y = x) := by
  by_cases h : x = y
  · simp [h]
  · have h2 : ¬ y = x := fun hh => h hh.symm
    simp [h, h2]

lemma F64.beq_comm (a b : F64) : F64.beq a b = F64.beq b a := by
  cases a <;> cases b <;> first
    | rfl
    | exact decide_eq_comm _ _

lemma relativeEq_finite (x y : ℚ) :
    relativeEq (.finite x) (.finite y) =
      (if x = y then true
       else if ratAbs (x - y) ≤ f64Epsilon then true
       else decide (ratAbs (x - y) ≤ ratMax (ratAbs x) (ratAbs y) * maxRelativeTol)) := by
  unfold relativeEq F64.beq F64.isInfinite
  by_cases h : x = y
  · simp [h]
  · simp [h]

lemma relativeEq_refl_finite (q : ℚ) : relativeEq (.finite q) (.finite q) = true := by
  rw [relativeEq_finite]
  simp

lemma relativeEq_comm (a b : F64) : relativeEq a b = relativeEq b a := by
  cases a with
  | finite x =>
    cases b with
    | finite y =>
      rw [relativeEq_finite, relativeEq_finite]
      by_cases hab : x = y
      · have hba : y = x := hab.symm
        rw [if_pos hab, if_pos hba]
      · have hba : ¬ y = x := fun h => hab h.symm
        rw [if_neg hab, if_neg hba, ratAbs_sub_comm x y, ratMax_comm (ratAbs x) (ratAbs y)]
    | nan => rfl
    | inf => rfl
    | negInf => rfl
  | nan => cases b <;> rfl
  | inf => cases b <;> rfl
  | negInf => cases b <;> rfl

lemma relativeEq_iff (a b : ℚ) :
    relativeEq (.finite a) (.finite b) = true ↔
      (a = b ∨ ratAbs (a - b) ≤ f64Epsilon
        ∨ ratAbs (a - b) ≤ ratMax (ratAbs a) (ratAbs b) * maxRelativeTol) := by
  rw [relativeEq_finite]
  by_cases h1 : a = b
  · simp [h1]
  · by_cases h2 : ratAbs (a - b) ≤ f64Epsilon
    · simp [h1, h2]
    · simp [h1, h2]

lemma paramsPairEq_refl (p : Param) (hp : p.isNanFloat = false) :
    paramsPairEq p p = true := by
  cases p with
  | float x =>
    cases x with
    | finite q => exact relativeEq_refl_finite q
    | nan => simp [Param.isNanFloat] at hp
    | inf => rfl
    | negInf => rfl
  | parameterExpression e => simp [paramsPairEq]
  | obj o => simp [paramsPairEq]

lemma paramsPairEq_comm (p q : Param) : paramsPairEq p q = paramsPairEq q p := by
  cases p <;> cases q <;> simp [paramsPairEq, relativeEq_comm, eq_comm]

lemma zip_self_all_of_no_nan (l : List Param)
    (h : l.all (fun p => !p.isNanFloat) = true) :
    ((l.zip l).all fun p => paramsPairEq p.1 p.2) = true := by
  induction l with
  | nil => rfl
  | cons a t ih =>
    simp only [List.all_cons, Bool.and_eq_true] at h
    simp only [List.zip_cons_cons, List.all_cons, Bool.and_eq_true]
    refine ⟨paramsPairEq_refl a ?_, ih h.2⟩
    simpa using h.1

lemma zipAll_comm (f : Param → Param → Bool) (hf : ∀ a b, f a b = f b a) :
    ∀ l₁ l₂ : List Param,
      ((l₁.zip l₂).all fun p => f p.1 p.2)
        = ((l₂.zip l₁).all fun p => f p.1 p.2) := by
  intro l₁
  induction l₁ with
  | nil => intro l₂; cases l₂ <;> rfl
  | cons a t ih =>
    intro l₂
    cases l₂ with
    | nil => rfl
    | cons b t₂ => simp [List.zip_cons_cons, List.all_cons, hf a b, ih t₂]

lemma opEq_eval (a b : DAGOpNode) :
    DAGOpNode.eq a (.opNode b) =
      (decide (a.base.py_nid = b.base.py_nid) &&
       opPyEq a.instruction.operation b.instruction.operation &&
       (if (a.instruction.operation.try_standard_gate).isSome then
          (a.instruction.params.zip b.instruction.params).all
            (fun p => paramsPairEq p.1 p.2)
        else true) &&
       decide (a.instruction.qubits = b.instruction.qubits) &&
       decide (a.instruction.clbits = b.instruction.clbits)) := by
  unfold DAGOpNode.eq
  by_cases h1 : a.base.py_nid = b.base.py_nid
  · by_cases h2 : opPyEq a.instruction.operation b.instruction.operation = true
    · simp [h1, h2]
    · have h2f : opPyEq a.instruction.operation b.instruction.operation = false := by
        cases hx : opPyEq a.instruction.operation b.instruction.operation
        · rfl
        · exact absurd hx h2
      simp [h1, h2, h2f]
  · simp [h1]

lemma params_eq_branch_refl (b : DAGOpNode)
    (hsafe : selfComparable (.opNode b) = true) :
    (if (b.instruction.operation.try_standard_gate).isSome then
        (b.instruction.params.zip b.instruction.params).all
          (fun p => paramsPairEq p.1 p.2)
      else true) = true := by
  by_cases hstd : (b.instruction.operation.try_standard_gate).isSome = true
  · rw [if_pos hstd]
    simp only [selfComparable] at hsafe
    rw [hstd] at hsafe
    simp only [Bool.not_true, Bool.false_or] at hsafe
    exact zip_self_all_of_no_nan _ hsafe
  · rw [if_neg hstd]

lemma opEq_refl (n : DAGOpNode) (h : selfComparable (.opNode n) = true) :
    DAGOpNode.eq n (.opNode n) = true := by
  rw [opEq_eval, params_eq_branch_refl n h]
  simp [opPyEq]

lemma opEq_symm (a b : DAGOpNode) :
    DAGOpNode.eq a (.opNode b) = DAGOpNode.eq b (.opNode a) := by
  rw [opEq_eval, opEq_eval]
  by_cases hop : a.instruction.operation = b.instruction.operation
  · rw [hop, zipAll_comm paramsPairEq paramsPairEq_comm,
      decide_eq_comm a.base.py_nid b.base.py_nid,
      decide_eq_comm a.instruction.qubits b.instruction.qubits,
      decide_eq_comm a.instruction.clbits b.instruction.clbits]
  · have h1 : opPyEq a.instruction.operation b.instruction.operation = false := by
      simp [opPyEq, hop]
    have h2 : opPyEq b.instruction.operation a.instruction.operation = false := by
      simp only [opPyEq, decide_eq_false_iff_not]
      exact fun hh => hop hh.symm
    simp [h1, h2]

/-! ### Claim theorems -/

/-- C1 (counterexample): an Input-boundary node and an Output-boundary node
with identical index (0) and identical wire (7) do NOT compare equal — both
`__eq__` directions return false, refuting the claim that the equality check
returns true across the Input/Output tags. -/
theorem c1_counterexample :
    DAGInNode.eq ⟨⟨some 0⟩, 7⟩ (.outNode ⟨⟨some 0⟩, 7⟩) = false ∧
    DAGOutNode.eq ⟨⟨some 0⟩, 7⟩ (.inNode ⟨⟨some 0⟩, 7⟩) = false :=
  ⟨rfl, rfl⟩

/-- C1 (amended): boundary-node equality first downcasts the other value to
the same variant, so an Input node never equals an Output node (and vice
versa) even with identical index and wire; only between two nodes of the
same tag does equality compare exactly the index and the wire. -/
theorem c1_cross_tag_eq :
    (∀ (idx : Option Nat) (w : Nat),
       DAGInNode.eq ⟨⟨idx⟩, w⟩ (.outNode ⟨⟨idx⟩, w⟩) = false ∧
       DAGOutNode.eq ⟨⟨idx⟩, w⟩ (.inNode ⟨⟨idx⟩, w⟩) = false) ∧
    (∀ a b : DAGInNode,
       DAGInNode.eq a (.inNode b)
         = (decide (a.base.py_nid = b.base.py_nid) && decide (a.wire = b.wire))) ∧
    (∀ a b : DAGOutNode,
       DAGOutNode.eq a (.outNode b)
         = (decide (a.base.py_nid = b.base.py_nid) && decide (a.wire = b.wire))) :=
  ⟨fun _ _ => ⟨rfl, rfl⟩, fun _ _ => rfl, fun _ _ => rfl⟩

/-- C6: `DAGOpNode::__eq__` returns false against any non-Operation value
(Input node, Output node, or anything else) and returns false between two
Operation Nodes whose node ids differ; in particular a detached node never
equals an attached one. -/
theorem c6_eq_false_on_mismatch :
    (∀ (a : DAGOpNode) (n : DAGInNode), DAGOpNode.eq a (.inNode n) = false) ∧
    (∀ (a : DAGOpNode) (n : DAGOutNode), DAGOpNode.eq a (.outNode n) = false) ∧
    (∀ (a : DAGOpNode) (o : Nat), DAGOpNode.eq a (.other o) = false) ∧
    (∀ a b : DAGOpNode, a.base.py_nid ≠ b.base.py_nid →
       DAGOpNode.eq a (.opNode b) = false) ∧
    (∀ (a b : DAGOpNode) (i : Nat), a.base.node = none → b.base.node = some i →
       DAGOpNode.eq a (.opNode b) = false) := by
  have hnid : ∀ a b : DAGOpNode, a.base.py_nid ≠ b.base.py_nid →
      DAGOpNode.eq a (.opNode b) = false := by
    intro a b h
    simp only [DAGOpNode.eq]
    rw [if_pos h]
  refine ⟨fun _ _ => rfl, fun _ _ => rfl, fun _ _ => rfl, hnid, ?_⟩
  intro a b i ha hb
  apply hnid
  simp [DAGNode.py_nid, ha, hb]

/-- C6 (witness): a detached Operation Node compared to an attached one with
the same payload returns false. -/
theorem c6_eq_false_on_mismatch_witness :
    DAGOpNode.eq ⟨⟨none⟩, ⟨⟨.standardGate 0, "h"⟩, [0], [], [], none, false⟩⟩
      (.opNode ⟨⟨some 0⟩, ⟨⟨.standardGate 0, "h"⟩, [0], [], [], none, false⟩⟩)
      = false :=
  c6_eq_false_on_mismatch.2.2.2.2 _ _ 0 rfl rfl

/-- C7: `__lt__` and `__gt__` are computed purely from the raw `py_nid`
values; a detached node's id is the sentinel `-1`, an attached node's id is
its non-negative index, so every detached node compares less than every
attached node. -/
theorem c7_ordering_by_index :
    (∀ a b : DAGNode, DAGNode.lt a b = decide (a.py_nid < b.py_nid)) ∧
    (∀ a b : DAGNode, DAGNode.gt a b = decide (a.py_nid > b.py_nid)) ∧
    (DAGNode.py_nid ⟨none⟩ = -1) ∧
    (∀ i : Nat, DAGNode.py_nid ⟨some i⟩ = (i : Int)) ∧
    (∀ (a b : DAGNode) (i : Nat), a.node = none → b.node = some i →
       DAGNode.lt a b = true ∧ DAGNode.gt b a = true) := by
  refine ⟨fun _ _ => rfl, fun _ _ => rfl, rfl, fun _ => rfl, ?_⟩
  intro a b i ha hb
  unfold DAGNode.lt DAGNode.gt DAGNode.py_nid
  rw [ha, hb]
  constructor <;> · simp only [decide_eq_true_eq]; omega

/-- C7 (witness): the ordering statement applied to a detached node and the
attached node with index 0. -/
theorem c7_ordering_by_index_witness :
    DAGNode.lt ⟨none⟩ ⟨some 0⟩ = true ∧ DAGNode.gt ⟨some 0⟩ ⟨none⟩ = true :=
  c7_ordering_by_index.2.2.2.2 ⟨none⟩ ⟨some 0⟩ 0 rfl rfl

/-- C3: any two Operation Nodes equal under `DAGOpNode::__eq__` produce the
same `__hash__` input, and the hash depends only on the node id and the
operation name, so any two nodes sharing those hash equal regardless of
parameters, targets, label or cache state. -/
theorem c3_hash_consistency :
    (∀ a b : DAGOpNode, DAGOpNode.eq a (.opNode b) = true →
       a.hashModel = b.hashModel) ∧
    (∀ a b : DAGOpNode, a.base.node = b.base.node →
       a.instruction.operation.name = b.instruction.operation.name →
       a.hashModel = b.hashModel) := by
  constructor
  · intro a b h
    rw [opEq_eval] at h
    simp only [Bool.and_eq_true, decide_eq_true_eq] at h
    obtain ⟨⟨⟨⟨hnid, hop⟩, -⟩, -⟩, -⟩ := h
    have hop2 : a.instruction.operation = b.instruction.operation := by
      simpa [opPyEq] using hop
    unfold DAGOpNode.hashModel
    rw [hnid, hop2]
  · intro a b h1 h2
    unfold DAGOpNode.hashModel DAGNode.py_nid
    rw [h1, h2]

/-- C3 (witness): two nodes with the same id and operation name but
different parameters, targets, label and cache state hash equal; they are
also equal under `__eq__` (same everything except label and cache), so the
first clause applies to them as well. -/
theorem c3_hash_consistency_witness :
    DAGOpNode.hashModel ⟨⟨some 1⟩, ⟨⟨.standardGate 0, "h"⟩, [0], [], [], none, false⟩⟩
      = DAGOpNode.hashModel
          ⟨⟨some 1⟩, ⟨⟨.standardGate 0, "h"⟩, [0], [], [], some "x", true⟩⟩ :=
  c3_hash_consistency.1
    ⟨⟨some 1⟩, ⟨⟨.standardGate 0, "h"⟩, [0], [], [], none, false⟩⟩
    ⟨⟨some 1⟩, ⟨⟨.standardGate 0, "h"⟩, [0], [], [], some "x", true⟩⟩
    (by rfl)

/-- C5 (counterexample): a standard-gate Operation Node with a NaN float
parameter snapshots normally, but the restored node does NOT compare equal
to the original — the tolerant parameter loop runs `relative_eq!(NaN, NaN)`,
which is false — refuting the claim that the round-trip reproduces an equal
node for every node. -/
theorem c5_counterexample :
    snapshotAny (.opNode ⟨⟨some 0⟩,
        ⟨⟨.standardGate 1, "rz"⟩, [0], [], [.float .nan], none, false⟩⟩)
      = some (.op ⟨.standardGate 1, "rz"⟩ [.float .nan] none [0] [] (some 0)) ∧
    anyEq (restoreAny (.op ⟨.standardGate 1, "rz"⟩ [.float .nan] none [0] [] (some 0)))
        (.opNode ⟨⟨some 0⟩,
          ⟨⟨.standardGate 1, "rz"⟩, [0], [], [.float .nan], none, false⟩⟩)
      = false :=
  ⟨rfl, rfl⟩

/-- C5 (amended): restoring the `__reduce__` snapshot of any node variant —
replaying the detached constructor on the payload, then writing the raw
index via `__setstate__` — yields a node equal to the original under that
variant's `__eq__`, including for detached nodes (the `None` state is
preserved), except when the node is a standard-gate Operation Node with a
NaN float parameter, whose tolerant comparison fails against itself. -/
theorem c5_snapshot_roundtrip :
    ∀ (n : PyAny) (s : NodeSnapshot), snapshotAny n = some s →
      selfComparable n = true → anyEq (restoreAny s) n = true := by
  intro n s h hsafe
  cases n with
  | opNode m =>
    obtain ⟨⟨nd⟩, ⟨op, qb, cb, ps, lb, cp⟩⟩ := m
    simp only [snapshotAny, Option.some.injEq] at h
    subst h
    show DAGOpNode.eq _ (.opNode _) = true
    rw [opEq_eval]
    simp [opPyEq, params_eq_branch_refl ⟨⟨nd⟩, ⟨op, qb, cb, ps, lb, cp⟩⟩ hsafe]
  | inNode m =>
    simp only [snapshotAny, Option.some.injEq] at h
    subst h
    simp [restoreAny, anyEq, DAGInNode.eq]
  | outNode m =>
    simp only [snapshotAny, Option.some.injEq] at h
    subst h
    simp [restoreAny, anyEq, DAGOutNode.eq]
  | other o => simp [snapshotAny] at h

/-- C5 (witness): the round-trip applied to a detached Input node — the
sentinel (`none`) index survives the snapshot and the restored node equals
the original. -/
theorem c5_snapshot_roundtrip_witness :
    anyEq (restoreAny (NodeSnapshot.inn 4 none)) (.inNode ⟨⟨none⟩, 4⟩) = true :=
  c5_snapshot_roundtrip (.inNode ⟨⟨none⟩, 4⟩) (.inn 4 none) rfl rfl

/-- C8 (counterexample): a standard-gate Operation Node with a NaN float
parameter does not compare equal to itself — no branch of `relative_eq!`
succeeds at NaN — refuting the claim that equality is reflexive for every
node. -/
theorem c8_counterexample :
    DAGOpNode.eq
        ⟨⟨some 0⟩, ⟨⟨.standardGate 1, "rz"⟩, [0], [], [.float .nan], none, false⟩⟩
        (.opNode ⟨⟨some 0⟩,
          ⟨⟨.standardGate 1, "rz"⟩, [0], [], [.float .nan], none, false⟩⟩)
      = false :=
  rfl

/-- C8 (amended): equality is reflexive for boundary nodes always, and for
Operation Nodes except standard-gate nodes carrying a NaN float parameter
(there the tolerant float rule fails against itself); variant-dispatched
equality is symmetric on all Python values, the tolerant float rule
included. -/
theorem c8_eq_refl_symm :
    (∀ n : DAGOpNode, selfComparable (.opNode n) = true →
       DAGOpNode.eq n (.opNode n) = true) ∧
    (∀ n : DAGInNode, DAGInNode.eq n (.inNode n) = true) ∧
    (∀ n : DAGOutNode, DAGOutNode.eq n (.outNode n) = true) ∧
    (∀ a b : PyAny, anyEq a b = anyEq b a) := by
  refine ⟨opEq_refl, ?_, ?_, ?_⟩
  · intro n; simp [DAGInNode.eq]
  · intro n; simp [DAGOutNode.eq]
  · intro a b
    cases a <;> cases b <;>
      simp only [anyEq, DAGOpNode.eq, DAGInNode.eq, DAGOutNode.eq]
    case opNode.opNode a b => exact opEq_symm a b
    case inNode.inNode a b =>
      rw [decide_eq_comm a.base.py_nid b.base.py_nid,
        decide_eq_comm a.wire b.wire]
    case outNode.outNode a b =>
      rw [decide_eq_comm a.base.py_nid b.base.py_nid,
        decide_eq_comm a.wire b.wire]

/-- C8 (witness): the reflexivity clause applied to a standard-gate node
with a finite float parameter, whose tolerant self-comparison succeeds. -/
theorem c8_eq_refl_symm_witness :
    DAGOpNode.eq
        ⟨⟨some 0⟩, ⟨⟨.standardGate 1, "rz"⟩, [0], [],
          [.float (.finite (1/10))], none, false⟩⟩
        (.opNode ⟨⟨some 0⟩, ⟨⟨.standardGate 1, "rz"⟩, [0], [],
          [.float (.finite (1/10))], none, false⟩⟩)
      = true :=
  c8_eq_refl_symm.1
    ⟨⟨some 0⟩, ⟨⟨.standardGate 1, "rz"⟩, [0], [],
      [.float (.finite (1/10))], none, false⟩⟩ rfl

/-- C10: for two standard-gate Operation Nodes with equal id, operation,
qubit and clbit tuples, the parameter loop runs over `zip`, inspecting only
positions up to the shorter parameter list; if every zipped pair passes the
tolerant comparison the nodes compare equal, whatever the two lengths are —
a parameter-count mismatch alone never forces inequality at this step. -/
theorem c10_zip_truncation :
    ∀ (node : Option Nat) (op : OperationDescr) (q c : List Nat)
      (lab₁ lab₂ : Option String) (cp₁ cp₂ : Bool) (ps₁ ps₂ : List Param),
      (op.try_standard_gate).isSome = true →
      ((ps₁.zip ps₂).all fun p => paramsPairEq p.1 p.2) = true →
      DAGOpNode.eq ⟨⟨node⟩, ⟨op, q, c, ps₁, lab₁, cp₁⟩⟩
        (.opNode ⟨⟨node⟩, ⟨op, q, c, ps₂, lab₂, cp₂⟩⟩) = true := by
  intro node op q c lab₁ lab₂ cp₁ cp₂ ps₁ ps₂ hstd hall
  rw [opEq_eval]
  simp [opPyEq, hstd, hall]

/-- C10 (witness): a one-parameter node and a two-parameter node whose
parameter lists agree on the zipped position compare equal. -/
theorem c10_zip_truncation_witness :
    DAGOpNode.eq
        ⟨⟨some 2⟩, ⟨⟨.standardGate 1, "rz"⟩, [0], [],
          [.float (.finite (1/10))], none, false⟩⟩
        (.opNode ⟨⟨some 2⟩, ⟨⟨.standardGate 1, "rz"⟩, [0], [],
          [.float (.finite (1/10)), .float (.finite 2)], none, false⟩⟩)
      = true :=
  c10_zip_truncation (some 2) ⟨.standardGate 1, "rz"⟩ [0] [] none none false false
    [.float (.finite (1/10))] [.float (.finite (1/10)), .float (.finite 2)] rfl
    (by simp [List.zip_cons_cons, paramsPairEq, relativeEq_refl_finite])

/-- C2 (counterexample): two standard-gate Operation Nodes identical except
for the parameters `2^-60` and `2^-61` compare equal under
`DAGOpNode::__eq__` (the `relative_eq!` absolute-epsilon fallback fires,
`|a-b| = 2^-61 ≤ f64::EPSILON`), yet their relative difference is `1/2`, far
above `1e-10` — refuting the claimed "equal iff relative difference within
1e-10". -/
theorem c2_counterexample :
    DAGOpNode.eq
        ⟨⟨some 0⟩, ⟨⟨.standardGate 1, "rz"⟩, [0], [],
          [.float (.finite (1/2^60))], none, false⟩⟩
        (.opNode ⟨⟨some 0⟩,
          ⟨⟨.standardGate 1, "rz"⟩, [0], [],
            [.float (.finite (1/2^61))], none, false⟩⟩)
      = true ∧
    ¬ (ratAbs ((1:ℚ)/2^60 - 1/2^61)
        ≤ ratMax (ratAbs ((1:ℚ)/2^60)) (ratAbs ((1:ℚ)/2^61)) * maxRelativeTol) := by
  constructor
  · rw [opEq_eval]
    have hrel : relativeEq (.finite ((2^60 : ℚ))⁻¹) (.finite ((2^61 : ℚ))⁻¹) = true := by
      rw [relativeEq_finite]
      unfold ratAbs f64Epsilon
      norm_num
    simp [opPyEq, OperationDescr.try_standard_gate, paramsPairEq, hrel]
  · unfold ratAbs ratMax maxRelativeTol
    norm_num

/-- C2 (amended): for standard-gate Operation Nodes identical except for one
finite plain-float parameter each, equality holds iff the floats are identical, or
their absolute difference is at most `f64::EPSILON = 2^-52`, or their
absolute difference is within relative `1e-10` of the larger magnitude; any
pairing of mismatched parameter kinds compares unequal. -/
theorem c2_tolerant_float_rule :
    (∀ (node : Option Nat) (op : OperationDescr) (q c : List Nat)
       (lab₁ lab₂ : Option String) (cp₁ cp₂ : Bool) (a b : ℚ),
       (op.try_standard_gate).isSome = true →
       (DAGOpNode.eq ⟨⟨node⟩, ⟨op, q, c, [.float (.finite a)], lab₁, cp₁⟩⟩
           (.opNode ⟨⟨node⟩, ⟨op, q, c, [.float (.finite b)], lab₂, cp₂⟩⟩) = true
         ↔ (a = b ∨ ratAbs (a - b) ≤ f64Epsilon
             ∨ ratAbs (a - b) ≤ ratMax (ratAbs a) (ratAbs b) * maxRelativeTol))) ∧
    (∀ p q : Param, p.kindTag ≠ q.kindTag → paramsPairEq p q = false) := by
  constructor
  · intro node op q c lab₁ lab₂ cp₁ cp₂ a b hstd
    rw [opEq_eval]
    simp only [opPyEq, hstd, if_true, List.zip_cons_cons, List.zip_nil_right,
      List.all_cons, List.all_nil, paramsPairEq, Bool.and_true, Bool.true_and,
      Bool.and_eq_true, decide_eq_true_eq]
    rw [relativeEq_iff]
    tauto
  · intro p q h
    cases p <;> cases q <;> simp_all [Param.kindTag, paramsPairEq]

/-- C2 (witness): the amended rule applied concretely — `0.1` and
`0.1 + 1e-12` compare equal (relative difference `≈ 1e-11 < 1e-10`), `0.1`
and `0.1001` compare unequal, and a float never equals an opaque-object
parameter. -/
theorem c2_tolerant_float_rule_witness :
    DAGOpNode.eq
        ⟨⟨none⟩, ⟨⟨.standardGate 2, "rz"⟩, [0], [],
          [.float (.finite (1/10))], none, false⟩⟩
        (.opNode ⟨⟨none⟩, ⟨⟨.standardGate 2, "rz"⟩, [0], [],
          [.float (.finite (1/10 + 1/10^12))], none, false⟩⟩)
      = true ∧
    DAGOpNode.eq
        ⟨⟨none⟩, ⟨⟨.standardGate 2, "rz"⟩, [0], [],
          [.float (.finite (1/10))], none, false⟩⟩
        (.opNode ⟨⟨none⟩, ⟨⟨.standardGate 2, "rz"⟩, [0], [],
          [.float (.finite (1001/10000))], none, false⟩⟩)
      = false ∧
    paramsPairEq (.float (.finite (1/10))) (.obj 0) = false := by
  refine ⟨?_, ?_, ?_⟩
  · exact (c2_tolerant_float_rule.1 none ⟨.standardGate 2, "rz"⟩ [0] [] none none
      false false (1/10) (1/10 + 1/10^12) rfl).mpr
      (Or.inr (Or.inr (by unfold ratAbs ratMax maxRelativeTol; norm_num)))
  · have h := (c2_tolerant_float_rule.1 none ⟨.standardGate 2, "rz"⟩ [0] [] none
      none false false (1/10) (1001/10000) rfl)
    cases hx : DAGOpNode.eq
        ⟨⟨none⟩, ⟨⟨.standardGate 2, "rz"⟩, [0], [],
          [.float (.finite (1/10))], none, false⟩⟩
        (.opNode ⟨⟨none⟩, ⟨⟨.standardGate 2, "rz"⟩, [0], [],
          [.float (.finite (1001/10000))], none, false⟩⟩) with
    | false => rfl
    | true =>
      exfalso
      have := h.mp hx
      revert this
      unfold ratAbs ratMax f64Epsilon maxRelativeTol
      norm_num
  · exact c2_tolerant_float_rule.2 (.float (.finite (1/10))) (.obj 0) (by decide)

/-- C9: duplicating an instruction into an Operation Node with `deepcopy`
requested produces a detached node whose `cache_pygates` cell is empty, whose
params, targets, label and operation name are preserved, whose fixed/native
operation kinds (standard gate, standard instruction, unitary) are copied by
value, and whose generic/opaque kinds (gate, instruction, operation) are
rebuilt through the external `py_deepcopy` of their payload. -/
theorem c9_deepcopy_rebuild :
    ∀ (f : DeepcopyFns) (instr : CircuitInstruction),
      ((from_instruction f instr true).base.node = none) ∧
      ((from_instruction f instr true).instruction.py_op = false) ∧
      ((from_instruction f instr true).instruction.params = instr.params ∧
       (from_instruction f instr true).instruction.qubits = instr.qubits ∧
       (from_instruction f instr true).instruction.clbits = instr.clbits ∧
       (from_instruction f instr true).instruction.label = instr.label ∧
       (from_instruction f instr true).instruction.operation.name
         = instr.operation.name) ∧
      (∀ g, instr.operation.kind = .standardGate g →
         (from_instruction f instr true).instruction.operation
           = instr.operation) ∧
      (∀ i, instr.operation.kind = .standardInstruction i →
         (from_instruction f instr true).instruction.operation
           = instr.operation) ∧
      (∀ u, instr.operation.kind = .unitary u →
         (from_instruction f instr true).instruction.operation
           = instr.operation) ∧
      (∀ g, instr.operation.kind = .gate g →
         (from_instruction f instr true).instruction.operation.kind
           = .gate (f.gate g)) ∧
      (∀ i, instr.operation.kind = .instruction i →
         (from_instruction f instr true).instruction.operation.kind
           = .instruction (f.instruction i)) ∧
      (∀ o, instr.operation.kind = .operation o →
         (from_instruction f instr true).instruction.operation.kind
           = .operation (f.operation o)) := by
  intro f instr
  obtain ⟨⟨k, nm⟩, qb, cb, ps, lb, cp⟩ := instr
  refine ⟨rfl, rfl, ⟨rfl, rfl, rfl, rfl, rfl⟩, ?_, ?_, ?_, ?_, ?_, ?_⟩ <;>
    · intro x hx
      simp only at hx
      subst hx
      rfl

/-- C9 (witness): deep-duplicating an instruction holding a generic gate
routes the payload through the external deep copy (`Nat.succ` here) and
leaves the cache empty even though the source cache was populated. -/
theorem c9_deepcopy_rebuild_witness :
    (from_instruction ⟨Nat.succ, Nat.succ, Nat.succ⟩
        ⟨⟨.gate 5, "u"⟩, [0], [], [], none, true⟩ true).instruction.operation.kind
      = .gate 6 ∧
    (from_instruction ⟨Nat.succ, Nat.succ, Nat.succ⟩
        ⟨⟨.gate 5, "u"⟩, [0], [], [], none, true⟩ true).instruction.py_op
      = false :=
  ⟨(c9_deepcopy_rebuild ⟨Nat.succ, Nat.succ, Nat.succ⟩
      ⟨⟨.gate 5, "u"⟩, [0], [], [], none, true⟩).2.2.2.2.2.2.1 5 rfl,
   (c9_deepcopy_rebuild ⟨Nat.succ, Nat.succ, Nat.succ⟩
      ⟨⟨.gate 5, "u"⟩, [0], [], [], none, true⟩).2.1⟩

end QiskitDagNode
